import Mathlib

/-!
Verification development for the `nanobot` CustomProvider adapter
(`src/nanobot/providers/custom_provider.py`).

The adapter is shallowly embedded: the mutable attributes of a
`CustomProvider` instance become an explicit `ProviderState` record, and
every network interaction is represented by an oracle argument describing
the outcome the underlying client would deliver (`Except String α`:
`.ok` for a reply, `.error e` for a raised exception with message `e`).
Python lists of strings become `List String`; Python `None` becomes
`Option`.  Methods that mutate the instance return the new state
explicitly.
-/

/-- A structured JSON value, the result type of the argument-repair step. -/
inductive JValue where
  | null : JValue
  | bool (b : Bool) : JValue
  | num (n : Int) : JValue
  | str (s : String) : JValue
  | arr (xs : List JValue) : JValue
  | obj (fields : List (String × JValue)) : JValue

/-- Skip JSON whitespace characters. -/
def skipWs : List Char → List Char
  | c :: cs =>
    if c = ' ' ∨ c = '\n' ∨ c = '\t' ∨ c = '\r' then skipWs cs else c :: cs
  | [] => []

/-- Read characters up to a closing double quote (no escape handling:
the repair model only needs plain keys and values). -/
def parseStringChars : List Char → Option (String × List Char)
  | [] => none
  | c :: cs =>
    if c = '"' then some ("", cs)
    else
      match parseStringChars cs with
      | some (s, rest) => some (String.mk (c :: s.data), rest)
      | none => none

/-- Decimal digits to a natural number. -/
def digitsToNat (ds : List Char) : Nat :=
  ds.foldl (fun a c => a * 10 + (c.toNat - 48)) 0

/-- Parse an optionally signed integer literal. -/
def parseNumber (cs : List Char) : Option (Int × List Char) :=
  match cs with
  | '-' :: rest =>
    let ds := rest.takeWhile Char.isDigit
    if ds = [] then none
    else some (-(digitsToNat ds : Int), rest.drop ds.length)
  | _ =>
    let ds := cs.takeWhile Char.isDigit
    if ds = [] then none
    else some ((digitsToNat ds : Int), cs.drop ds.length)

mutual

/-- Fuel-bounded recursive-descent JSON value parser. -/
def parseJValue (fuel : Nat) (cs : List Char) : Option (JValue × List Char) :=
  match fuel with
  | 0 => none
  | fuel + 1 =>
    match skipWs cs with
    | [] => none
    | '"' :: rest =>
      (parseStringChars rest).map (fun p => (JValue.str p.1, p.2))
    | '\x7b' :: rest => parseMembers fuel rest []
    | '[' :: rest => parseElements fuel rest []
    | 't' :: 'r' :: 'u' :: 'e' :: r => some (JValue.bool true, r)
    | 'f' :: 'a' :: 'l' :: 's' :: 'e' :: r => some (JValue.bool false, r)
    | 'n' :: 'u' :: 'l' :: 'l' :: r => some (JValue.null, r)
    | other => (parseNumber other).map (fun p => (JValue.num p.1, p.2))

/-- Array elements; a trailing comma before `]` is tolerated. -/
def parseElements (fuel : Nat) (cs : List Char) (acc : List JValue) :
    Option (JValue × List Char) :=
  match fuel with
  | 0 => none
  | fuel + 1 =>
    match skipWs cs with
    | ']' :: r => some (JValue.arr acc.reverse, r)
    | rest =>
      match parseJValue fuel rest with
      | none => none
      | some (v, r1) =>
        match skipWs r1 with
        | ',' :: r2 => parseElements fuel r2 (v :: acc)
        | ']' :: r2 => some (JValue.arr (v :: acc).reverse, r2)
        | _ => none

/-- Object members; a trailing comma before the closing brace is
tolerated. -/
def parseMembers (fuel : Nat) (cs : List Char) (acc : List (String × JValue)) :
    Option (JValue × List Char) :=
  match fuel with
  | 0 => none
  | fuel + 1 =>
    match skipWs cs with
    | '\x7d' :: r => some (JValue.obj acc.reverse, r)
    | '"' :: rest =>
      match parseStringChars rest with
      | none => none
      | some (k, r1) =>
        match skipWs r1 with
        | ':' :: r2 =>
          match parseJValue fuel r2 with
          | none => none
          | some (v, r3) =>
            match skipWs r3 with
            | ',' :: r4 => parseMembers fuel r4 ((k, v) :: acc)
            | '\x7d' :: r4 => some (JValue.obj ((k, v) :: acc).reverse, r4)
            | _ => none
        | _ => none
    | _ => none

end

/-- Modelled from the spec: `json_repair.loads`, the external
error-repair/JSON-recovery utility (excluded from the repository, listed
in the spec as an external collaborator).  A best-effort total parse:
valid JSON (tolerating trailing commas) yields the structured value;
anything unparseable falls back to wrapping the raw text, so the function
never raises. -/
def json_repair_loads (s : String) : JValue :=
  match parseJValue (2 * s.length + 4) s.data with
  | some (v, rest) => if skipWs rest = [] then v else JValue.str s
  | none => JValue.str s

/-- A tool-call argument payload as delivered by the vendor SDK: either a
JSON-encoded string or an already structured value
(the `isinstance(tc.function.arguments, str)` test in `_parse`). -/
inductive ArgPayload where
  | raw (s : String) : ArgPayload
  | structured (v : JValue) : ArgPayload

/-- The `function` field of a vendor tool call. -/
structure VendorFunction where
  name : String
  arguments : ArgPayload

/-- A vendor tool-call entry (`tc.id`, `tc.function`). -/
structure VendorToolCall where
  id : String
  function : VendorFunction

/-- The vendor reply message: `content`, `tool_calls` (may be absent),
and the optional `reasoning_content` attribute probed via `getattr`
(`none` models both an absent attribute and an explicit `None`). -/
structure VendorMessage where
  content : Option String
  tool_calls : Option (List VendorToolCall)
  reasoning_content : Option String

/-- One completion choice: `choice.message` and `choice.finish_reason`. -/
structure VendorChoice where
  message : VendorMessage
  finish_reason : Option String

/-- The vendor usage block with its three token counters. -/
structure VendorUsage where
  prompt_tokens : Int
  completion_tokens : Int
  total_tokens : Int

/-- A successful vendor chat-completion response body. -/
structure VendorResponse where
  choices : List VendorChoice
  usage : Option VendorUsage

/-- The runtime-neutral tool-call record produced by the adapter
(`ToolCallRequest` from `nanobot.providers.base`): arguments are a parsed
structured value, never a raw string. -/
structure ToolCallRequest where
  id : String
  name : String
  arguments : JValue

/-- The runtime-neutral chat result (`LLMResponse` from
`nanobot.providers.base`); field defaults follow the spec data model:
empty tool calls, empty usage mapping, absent reasoning trace. -/
structure LLMResponse where
  content : Option String
  tool_calls : List ToolCallRequest := []
  finish_reason : String
  usage : List (String × Int) := []
  reasoning_content : Option String := none

/-- A chat message as supplied by the runtime: a role and an optional
content (`none` models an absent content field). -/
structure ChatMessage where
  role : String
  content : Option String

/-- The mutable attributes of a `CustomProvider` instance together with
its construction-time configuration. -/
structure ProviderState where
  api_key : String
  api_base : String
  default_model : String
  current_model : String
  available_models : List String
  models_loaded : Bool

/-- Outcome of one network interaction as delivered by the underlying
client: `.ok` carries the decoded reply, `.error e` models a raised
exception rendered as the message string `e`. -/
abbrev FetchOutcome := Except String (List String)

namespace CustomProvider

/-- `CustomProvider.__init__`: current model starts at the default, the
catalog is empty and unloaded. -/
def init (api_key : String) (api_base : String) (default_model : String) :
    ProviderState :=
  { api_key := api_key
    api_base := api_base
    default_model := default_model
    current_model := default_model
    available_models := []
    models_loaded := false }

/-- `_fetch_models`: returns the listed model ids on success; any
exception is caught, logged, and turned into an empty list — the method
itself never raises. -/
def fetch_models (o : FetchOutcome) : List String :=
  match o with
  | .ok models => models
  | .error _ => []

/-- `_ensure_models_loaded`: on first access performs one fetch and marks
the catalog loaded; afterwards a no-op.  The second component counts the
network fetches performed (0 or 1). -/
def ensure_models_loaded (s : ProviderState) (o : FetchOutcome) :
    ProviderState × Nat :=
  if s.models_loaded = false then
    ({ s with available_models := fetch_models o, models_loaded := true }, 1)
  else (s, 0)

/-- `list_models`: ensures the catalog is loaded, then returns the
catalog (the source returns `self._available_models.copy()`; under value
semantics the defensive copy is the value itself).  The third component
counts network fetches performed by the call. -/
def list_models (s : ProviderState) (o : FetchOutcome) :
    ProviderState × List String × Nat :=
  let p := ensure_models_loaded s o
  (p.1, p.1.available_models, p.2)

/-- `get_default_model`. -/
def get_default_model (s : ProviderState) : String :=
  s.default_model

/-- `get_current_model`. -/
def get_current_model (s : ProviderState) : String :=
  s.current_model

/-- `set_model`: with a loaded catalog, succeed only on catalog members;
with an unloaded catalog, accept any non-empty name (`if model_name:` is
Python string truthiness). -/
def set_model (s : ProviderState) (model_name : String) :
    ProviderState × Bool :=
  if s.models_loaded = true then
    if model_name ∈ s.available_models then
      ({ s with current_model := model_name }, true)
    else (s, false)
  else if model_name ≠ "" then
    ({ s with current_model := model_name }, true)
  else (s, false)

/-- `refresh_models`: replaces the catalog with a fresh fetch and marks
it loaded.  The `except` branch of the source is unreachable: the awaited
`_fetch_models` catches every exception internally and returns a list, and
the two attribute assignments cannot raise, so the method always returns
`True`. -/
def refresh_models (s : ProviderState) (o : FetchOutcome) :
    ProviderState × Bool :=
  ({ s with available_models := fetch_models o, models_loaded := true }, true)

/-- Modelled from the spec: the per-message normalization step of
`_sanitize_empty_content` (defined in `nanobot.providers.base`, which is
not part of this repository snapshot) — a message whose content is absent
or empty gets an explicit empty-string content. -/
def sanitize_message (m : ChatMessage) : ChatMessage :=
  match m.content with
  | none => { m with content := some "" }
  | some c => if c = "" then { m with content := some "" } else m

/-- Modelled from the spec: `_sanitize_empty_content`, defined in
`nanobot.providers.base` which is not part of this repository snapshot —
any message whose content is absent or empty is normalized to an explicit
empty-string content before transmission. -/
def sanitize_empty_content (msgs : List ChatMessage) : List ChatMessage :=
  msgs.map sanitize_message

/-- The argument-translation step of `_parse`: a raw string payload goes
through the repair parser, a structured payload passes through. -/
def parseArgs : ArgPayload → JValue
  | .raw s => json_repair_loads s
  | .structured v => v

/-- `_parse` applied to a vendor response whose `choices` list is known
to have a head choice: field-by-field translation with the source's
truthiness defaults (`or "stop"`, `if u else`, `or []`, `or None`). -/
def parseChoice (choice : VendorChoice) (usage : Option VendorUsage) :
    LLMResponse :=
  let msg := choice.message
  let tcs :=
    match msg.tool_calls with
    | none => []
    | some l => l
  { content := msg.content
    tool_calls := tcs.map (fun tc =>
      { id := tc.id
        name := tc.function.name
        arguments := parseArgs tc.function.arguments })
    finish_reason :=
      match choice.finish_reason with
      | none => "stop"
      | some f => if f = "" then "stop" else f
    usage :=
      match usage with
      | some u =>
        [("prompt_tokens", u.prompt_tokens),
         ("completion_tokens", u.completion_tokens),
         ("total_tokens", u.total_tokens)]
      | none => []
    reasoning_content :=
      match msg.reasoning_content with
      | none => none
      | some r => if r = "" then none else some r }

/-- `_parse`: reads `response.choices[0]`; an empty `choices` list makes
the subscript raise (the exception is caught by `chat`), modelled as
`none`. -/
def parse (r : VendorResponse) : Option LLMResponse :=
  match r.choices with
  | [] => none
  | choice :: _ => some (parseChoice choice r.usage)

/-- The keyword arguments `chat` transmits to
`client.chat.completions.create`. -/
structure ChatKwargs where
  model : String
  messages : List ChatMessage
  max_tokens : Int
  temperature : Float
  tools : Option (List JValue)
  tool_choice : Option String

/-- `chat`: builds the outbound request (the request model is
`model or self._current_model`, so a `None` or empty-string override
falls back to the current model by Python falsiness; content
sanitization; `max(1, max_tokens)` clamp; tools forwarded with
`tool_choice="auto"` when non-empty), performs one network call whose
outcome is the oracle, and converts any raised exception — from the
transport or from `_parse` on an empty `choices` list — into the sentinel
error response.  The method reads but never writes instance state, so the
state is returned unchanged. -/
def chat (s : ProviderState) (messages : List ChatMessage)
    (tools : Option (List JValue)) (model : Option String)
    (max_tokens : Int) (temperature : Float)
    (outcome : Except String VendorResponse) :
    ProviderState × ChatKwargs × LLMResponse :=
  let hasTools : Bool :=
    match tools with
    | some ts => !ts.isEmpty
    | none => false
  let kwargs : ChatKwargs :=
    { model :=
        match model with
        | some m => if m = "" then s.current_model else m
        | none => s.current_model
      messages := sanitize_empty_content messages
      max_tokens := max 1 max_tokens
      temperature := temperature
      tools := if hasTools then tools else none
      tool_choice := if hasTools then some "auto" else none }
  let resp : LLMResponse :=
    match outcome with
    | .error e =>
      { content := some ("Error: " ++ e), finish_reason := "error" }
    | .ok r =>
      match parse r with
      | some lr => lr
      | none =>
        { content := some ("Error: " ++ "list index out of range")
          finish_reason := "error" }
  (s, kwargs, resp)

end CustomProvider

open CustomProvider

/-- The construction-default adapter state, used as a concrete fixture. -/
def s0 : ProviderState :=
  CustomProvider.init "no-key" "http://localhost:8000/v1" "default"

/-- C1 counterexample: given a catalog fetch failure (the underlying
client raises), `refresh_models` returns `true`, not `false` — the
exception is absorbed inside `_fetch_models`, which returns an empty
list, so the `except` branch of `refresh_models` never runs. -/
theorem refresh_models_fetch_failure_returns_true :
    (CustomProvider.refresh_models s0 (Except.error "connection refused")).2 = true ∧
    (CustomProvider.refresh_models s0 (Except.error "connection refused")).2 ≠ false :=
  ⟨rfl, fun h => nomatch h⟩

/-- C1 (amended): `refresh_models` unconditionally refetches the catalog,
replaces the cached list with the fetch result (the empty list on any
fetch failure), marks it loaded, and returns `true` regardless of the
fetch outcome; it never returns `false`. -/
theorem refresh_models_always_replaces_and_returns_true :
    (∀ (s : ProviderState) (o : FetchOutcome),
      CustomProvider.refresh_models s o =
        ({ s with available_models := CustomProvider.fetch_models o,
                  models_loaded := true }, true)) ∧
    (∀ (s : ProviderState) (e : String),
      (CustomProvider.refresh_models s (Except.error e)).1.available_models = [] ∧
      (CustomProvider.refresh_models s (Except.error e)).1.models_loaded = true ∧
      (CustomProvider.refresh_models s (Except.error e)).2 = true) :=
  ⟨fun _ _ => rfl, fun _ _ => ⟨rfl, rfl, rfl⟩⟩

/-- C2: whenever the network call raises (any transport, authentication,
or malformed-response error), and likewise when the reply is so malformed
that its `choices` list is empty (making `_parse` raise), `chat` returns
a `ChatResponse` with `finish_reason = "error"` and a content of the form
`"Error: " ++ message`, instead of raising past the adapter boundary. -/
theorem chat_error_is_sentinel (s : ProviderState) (messages : List ChatMessage)
    (tools : Option (List JValue)) (model : Option String)
    (max_tokens : Int) (temperature : Float) (e : String) (r : VendorResponse) :
    ((CustomProvider.chat s messages tools model max_tokens temperature
        (Except.error e)).2.2.finish_reason = "error" ∧
     ∃ m, (CustomProvider.chat s messages tools model max_tokens temperature
        (Except.error e)).2.2.content = some ("Error: " ++ m)) ∧
    (r.choices = [] →
     (CustomProvider.chat s messages tools model max_tokens temperature
        (Except.ok r)).2.2.finish_reason = "error" ∧
     ∃ m, (CustomProvider.chat s messages tools model max_tokens temperature
        (Except.ok r)).2.2.content = some ("Error: " ++ m)) := by
  refine ⟨⟨rfl, e, rfl⟩, fun h => ?_⟩
  constructor
  · simp [CustomProvider.chat, CustomProvider.parse, h]
  · exact ⟨"list index out of range",
      by simp [CustomProvider.chat, CustomProvider.parse, h]⟩

/-- C2 witness: the sentinel shape at a concrete transport failure and a
concrete empty-choices reply. -/
theorem chat_error_is_sentinel_witness :
    ((CustomProvider.chat s0 [] none none 4096 0.7
        (Except.error "Connection refused")).2.2.finish_reason = "error" ∧
     ∃ m, (CustomProvider.chat s0 [] none none 4096 0.7
        (Except.error "Connection refused")).2.2.content = some ("Error: " ++ m)) ∧
    ((CustomProvider.chat s0 [] none none 4096 0.7
        (Except.ok ({ choices := [], usage := none }))).2.2.finish_reason = "error" ∧
     ∃ m, (CustomProvider.chat s0 [] none none 4096 0.7
        (Except.ok ({ choices := [], usage := none }))).2.2.content =
          some ("Error: " ++ m)) := by
  have h := chat_error_is_sentinel s0 [] none none 4096 0.7 "Connection refused"
    { choices := [], usage := none }
  exact ⟨h.1, h.2 rfl⟩

/-- C5: the transmitted `max_tokens` is `max 1 max_tokens`: it is exactly
1 whenever the requested bound is ≤ 0, and the requested bound itself
whenever that bound is ≥ 1. -/
theorem chat_clamps_max_tokens (s : ProviderState) (messages : List ChatMessage)
    (tools : Option (List JValue)) (model : Option String)
    (mt : Int) (temperature : Float) (outcome : Except String VendorResponse) :
    (mt ≤ 0 →
      (CustomProvider.chat s messages tools model mt temperature
        outcome).2.1.max_tokens = 1) ∧
    (1 ≤ mt →
      (CustomProvider.chat s messages tools model mt temperature
        outcome).2.1.max_tokens = mt) := by
  constructor
  · intro h
    show max 1 mt = 1
    omega
  · intro h
    show max 1 mt = mt
    omega

/-- C5 witness: requested bounds of -3, 0 and 7 transmit 1, 1 and 7. -/
theorem chat_clamps_max_tokens_witness :
    (CustomProvider.chat s0 [] none none (-3) 0.7
      (Except.error "x")).2.1.max_tokens = 1 ∧
    (CustomProvider.chat s0 [] none none 0 0.7
      (Except.error "x")).2.1.max_tokens = 1 ∧
    (CustomProvider.chat s0 [] none none 7 0.7
      (Except.error "x")).2.1.max_tokens = 7 :=
  ⟨(chat_clamps_max_tokens s0 [] none none (-3) 0.7 (Except.error "x")).1 (by decide),
   (chat_clamps_max_tokens s0 [] none none 0 0.7 (Except.error "x")).1 (by decide),
   (chat_clamps_max_tokens s0 [] none none 7 0.7 (Except.error "x")).2 (by decide)⟩

/-- C8 counterexample: an explicit empty-string model argument does not
override the current model — `model or self._current_model` treats `""`
as falsy, so the transmitted model is the adapter's current model
`"default"`, not the explicit argument `""`. -/
theorem chat_empty_model_override_ignored :
    (CustomProvider.chat s0 [] none (some "") 4096 0.7
      (Except.error "x")).2.1.model = "default" ∧
    (CustomProvider.chat s0 [] none (some "") 4096 0.7
      (Except.error "x")).2.1.model ≠ "" :=
  ⟨rfl, by decide⟩

/-- C8 (amended): a non-empty explicit model argument is transmitted as
the request model for that call; an empty-string argument is falsy under
the source's `model or self._current_model` and falls back to the current
model; in every case `chat` mutates no adapter state — the state after
the call equals the state before it, in particular `current_model`,
`available_models` and `models_loaded` are unchanged. -/
theorem chat_model_override_is_pure (s : ProviderState)
    (messages : List ChatMessage) (tools : Option (List JValue)) (m : String)
    (model : Option String) (mt : Int) (temperature : Float)
    (outcome : Except String VendorResponse) (hm : m ≠ "") :
    (CustomProvider.chat s messages tools (some m) mt temperature outcome).2.1.model = m ∧
    (CustomProvider.chat s messages tools (some "") mt temperature
      outcome).2.1.model = s.current_model ∧
    (CustomProvider.chat s messages tools model mt temperature outcome).1 = s ∧
    (CustomProvider.chat s messages tools model mt temperature
      outcome).1.current_model = s.current_model ∧
    (CustomProvider.chat s messages tools model mt temperature
      outcome).1.available_models = s.available_models ∧
    (CustomProvider.chat s messages tools model mt temperature
      outcome).1.models_loaded = s.models_loaded := by
  refine ⟨?_, rfl, rfl, rfl, rfl, rfl⟩
  show (if m = "" then s.current_model else m) = m
  simp [hm]

/-- C8 witness: a concrete non-empty override `"gpt-x"` is transmitted
while the state (including `current_model = "default"`) is unchanged, and
the concrete empty-string override transmits `"default"`. -/
theorem chat_model_override_is_pure_witness :
    (CustomProvider.chat s0 [] none (some "gpt-x") 4096 0.7
      (Except.error "x")).2.1.model = "gpt-x" ∧
    (CustomProvider.chat s0 [] none (some "") 4096 0.7
      (Except.error "x")).2.1.model = s0.current_model ∧
    (CustomProvider.chat s0 [] none (some "gpt-x") 4096 0.7
      (Except.error "x")).1 = s0 ∧
    (CustomProvider.chat s0 [] none (some "gpt-x") 4096 0.7
      (Except.error "x")).1.current_model = s0.current_model ∧
    (CustomProvider.chat s0 [] none (some "gpt-x") 4096 0.7
      (Except.error "x")).1.available_models = s0.available_models ∧
    (CustomProvider.chat s0 [] none (some "gpt-x") 4096 0.7
      (Except.error "x")).1.models_loaded = s0.models_loaded :=
  chat_model_override_is_pure s0 [] none "gpt-x" (some "gpt-x") 4096 0.7
    (Except.error "x") (by decide)

/-- C3: full case analysis of `set_model`.  With a loaded catalog it
succeeds exactly on catalog members (mutating only the current model) and
otherwise returns false with the state unchanged; with an unloaded
catalog it succeeds on every non-empty name and returns false, state
unchanged, exactly on the empty name. -/
theorem set_model_case_analysis (s : ProviderState) (name : String) :
    (s.models_loaded = true →
      (name ∈ s.available_models →
        CustomProvider.set_model s name = ({ s with current_model := name }, true)) ∧
      (name ∉ s.available_models →
        CustomProvider.set_model s name = (s, false))) ∧
    (s.models_loaded = false →
      (name ≠ "" →
        CustomProvider.set_model s name = ({ s with current_model := name }, true)) ∧
      (name = "" →
        CustomProvider.set_model s name = (s, false))) := by
  constructor
  · intro hl
    constructor
    · intro hm
      simp [CustomProvider.set_model, hl, hm]
    · intro hm
      simp [CustomProvider.set_model, hl, hm]
  · intro hl
    constructor
    · intro hn
      simp [CustomProvider.set_model, hl, hn]
    · intro hn
      simp [CustomProvider.set_model, hl, hn]

/-- A loaded one-model catalog state, used as a concrete fixture. -/
def sLoaded : ProviderState :=
  { s0 with available_models := ["m1"], models_loaded := true }

/-- C3 witness: all four branches at concrete states — member and
non-member names against a loaded catalog, non-empty and empty names
against an unloaded one. -/
theorem set_model_case_analysis_witness :
    CustomProvider.set_model sLoaded "m1" =
      ({ sLoaded with current_model := "m1" }, true) ∧
    CustomProvider.set_model sLoaded "gpt-x" = (sLoaded, false) ∧
    CustomProvider.set_model s0 "gpt-x" =
      ({ s0 with current_model := "gpt-x" }, true) ∧
    CustomProvider.set_model s0 "" = (s0, false) :=
  ⟨((set_model_case_analysis sLoaded "m1").1 rfl).1 (by decide),
   ((set_model_case_analysis sLoaded "gpt-x").1 rfl).2 (by decide),
   ((set_model_case_analysis s0 "gpt-x").2 rfl).1 (by decide),
   ((set_model_case_analysis s0 "").2 rfl).2 rfl⟩

/-- C4: from an unloaded state, two successive `list_models` calls
perform exactly one network fetch in total (one on the first call,
whether it succeeds or fails, none on the second), the second call leaves
the state unchanged, and each call returns exactly the current catalog
value. -/
theorem list_models_fetches_once (s : ProviderState) (o1 o2 : FetchOutcome)
    (h : s.models_loaded = false) :
    (CustomProvider.list_models s o1).2.2 = 1 ∧
    (CustomProvider.list_models (CustomProvider.list_models s o1).1 o2).2.2 = 0 ∧
    (CustomProvider.list_models s o1).2.1 =
      (CustomProvider.list_models s o1).1.available_models ∧
    (CustomProvider.list_models (CustomProvider.list_models s o1).1 o2).2.1 =
      (CustomProvider.list_models s o1).1.available_models ∧
    (CustomProvider.list_models (CustomProvider.list_models s o1).1 o2).1 =
      (CustomProvider.list_models s o1).1 := by
  simp [CustomProvider.list_models, CustomProvider.ensure_models_loaded, h]

/-- C4 witness: a failed first load followed by a second call — one fetch
then zero fetches, both calls returning the (empty) catalog. -/
theorem list_models_fetches_once_witness :
    (CustomProvider.list_models s0 (Except.error "boom")).2.2 = 1 ∧
    (CustomProvider.list_models (CustomProvider.list_models s0
        (Except.error "boom")).1 (Except.ok ["m1"])).2.2 = 0 ∧
    (CustomProvider.list_models s0 (Except.error "boom")).2.1 =
      (CustomProvider.list_models s0 (Except.error "boom")).1.available_models ∧
    (CustomProvider.list_models (CustomProvider.list_models s0
        (Except.error "boom")).1 (Except.ok ["m1"])).2.1 =
      (CustomProvider.list_models s0 (Except.error "boom")).1.available_models ∧
    (CustomProvider.list_models (CustomProvider.list_models s0
        (Except.error "boom")).1 (Except.ok ["m1"])).1 =
      (CustomProvider.list_models s0 (Except.error "boom")).1 :=
  list_models_fetches_once s0 (Except.error "boom") (Except.ok ["m1"]) rfl

/-- C6: on a successful reply whose first choice exists, `chat` defaults
the finish reason to `"stop"` when the vendor omits it, the usage mapping
to empty when usage metadata is absent, and leaves the reasoning-trace
field `none` when the endpoint does not supply it. -/
theorem chat_parse_defaults (s : ProviderState) (messages : List ChatMessage)
    (tools : Option (List JValue)) (model : Option String)
    (mt : Int) (temperature : Float) (r : VendorResponse)
    (choice : VendorChoice) (rest : List VendorChoice)
    (h : r.choices = choice :: rest) :
    (choice.finish_reason = none →
      (CustomProvider.chat s messages tools model mt temperature
        (Except.ok r)).2.2.finish_reason = "stop") ∧
    (r.usage = none →
      (CustomProvider.chat s messages tools model mt temperature
        (Except.ok r)).2.2.usage = []) ∧
    (choice.message.reasoning_content = none →
      (CustomProvider.chat s messages tools model mt temperature
        (Except.ok r)).2.2.reasoning_content = none) := by
  refine ⟨fun hf => ?_, fun hu => ?_, fun hr => ?_⟩
  · simp [CustomProvider.chat, CustomProvider.parse, CustomProvider.parseChoice, h, hf]
  · simp [CustomProvider.chat, CustomProvider.parse, CustomProvider.parseChoice, h, hu]
  · simp [CustomProvider.chat, CustomProvider.parse, CustomProvider.parseChoice, h, hr]

/-- A minimal vendor reply omitting finish reason, usage and reasoning
trace, used as a concrete fixture. -/
def rBare : VendorResponse :=
  { choices :=
      [{ message :=
           { content := some "hi", tool_calls := none, reasoning_content := none }
         finish_reason := none }]
    usage := none }

/-- C6 witness: the three defaults on the concrete minimal reply. -/
theorem chat_parse_defaults_witness :
    (CustomProvider.chat s0 [] none none 4096 0.7
      (Except.ok rBare)).2.2.finish_reason = "stop" ∧
    (CustomProvider.chat s0 [] none none 4096 0.7
      (Except.ok rBare)).2.2.usage = [] ∧
    (CustomProvider.chat s0 [] none none 4096 0.7
      (Except.ok rBare)).2.2.reasoning_content = none := by
  have h := chat_parse_defaults s0 [] none none 4096 0.7 rBare
    { message :=
        { content := some "hi", tool_calls := none, reasoning_content := none }
      finish_reason := none } [] rfl
  exact ⟨h.1 rfl, h.2.1 rfl, h.2.2 rfl⟩

/-- C7: on a successful reply whose first choice carries tool calls,
`chat` returns exactly one `ToolCallRequest` per vendor tool call, in
order, with ids and names preserved and the arguments translated by the
(total, hence never-raising) repair/parse step. -/
theorem chat_parses_tool_calls (s : ProviderState) (messages : List ChatMessage)
    (tools : Option (List JValue)) (model : Option String)
    (mt : Int) (temperature : Float) (r : VendorResponse)
    (choice : VendorChoice) (rest : List VendorChoice)
    (tcs : List VendorToolCall)
    (h : r.choices = choice :: rest)
    (htc : choice.message.tool_calls = some tcs) :
    (CustomProvider.chat s messages tools model mt temperature
      (Except.ok r)).2.2.tool_calls =
      tcs.map (fun tc =>
        { id := tc.id
          name := tc.function.name
          arguments := CustomProvider.parseArgs tc.function.arguments }) ∧
    (CustomProvider.chat s messages tools model mt temperature
      (Except.ok r)).2.2.tool_calls.length = tcs.length := by
  constructor
  · simp [CustomProvider.chat, CustomProvider.parse, CustomProvider.parseChoice, h, htc]
  · simp [CustomProvider.chat, CustomProvider.parse, CustomProvider.parseChoice, h, htc]

/-- Two vendor tool calls: one with well-formed JSON-string arguments,
one whose arguments string is malformed by a trailing comma. -/
def tcFix : List VendorToolCall :=
  [{ id := "c1"
     function := { name := "add", arguments := ArgPayload.raw "\x7b\"a\": 1, \"b\": 2\x7d" } },
   { id := "c2"
     function := { name := "frob", arguments := ArgPayload.raw "\x7b\"x\": 3,\x7d" } }]

/-- A vendor reply carrying the two tool calls of `tcFix`. -/
def rTools : VendorResponse :=
  { choices :=
      [{ message :=
           { content := none, tool_calls := some tcFix, reasoning_content := none }
         finish_reason := some "tool_calls" }]
    usage := none }

/-- C7 witness: the concrete reply yields exactly two requests in order;
the well-formed arguments string parses to a structured object and the
trailing-comma string still yields a best-effort structured object. -/
theorem chat_parses_tool_calls_witness :
    (CustomProvider.chat s0 [] none none 4096 0.7
      (Except.ok rTools)).2.2.tool_calls.length = 2 ∧
    (CustomProvider.chat s0 [] none none 4096 0.7
      (Except.ok rTools)).2.2.tool_calls =
      [{ id := "c1", name := "add",
         arguments := JValue.obj [("a", JValue.num 1), ("b", JValue.num 2)] },
       { id := "c2", name := "frob",
         arguments := JValue.obj [("x", JValue.num 3)] }] := by
  have h := chat_parses_tool_calls s0 [] none none 4096 0.7 rTools
    { message :=
        { content := none, tool_calls := some tcFix, reasoning_content := none }
      finish_reason := some "tool_calls" } [] tcFix rfl rfl
  exact ⟨h.2, h.1.trans (by rfl)⟩

/-- A message with absent or empty content is normalized to an explicit
empty-string content with its role intact. -/
theorem sanitize_message_of_empty (m : ChatMessage)
    (h : m.content = none ∨ m.content = some "") :
    CustomProvider.sanitize_message m = { role := m.role, content := some "" } := by
  rcases h with h | h <;> simp [CustomProvider.sanitize_message, h]

/-- Normalization never changes a message's role. -/
theorem sanitize_message_role (m : ChatMessage) :
    (CustomProvider.sanitize_message m).role = m.role := by
  cases hc : m.content with
  | none => simp [CustomProvider.sanitize_message, hc]
  | some c =>
    simp only [CustomProvider.sanitize_message, hc]
    split <;> rfl

/-- C9: every message whose content is absent or empty is transmitted by
`chat` at the same position with content coerced to an explicit empty
string (and its role preserved), never omitted or null. -/
theorem chat_transmits_empty_content_as_empty_string (s : ProviderState)
    (messages : List ChatMessage) (tools : Option (List JValue))
    (model : Option String) (mt : Int) (temperature : Float)
    (outcome : Except String VendorResponse)
    (i : Nat) (hi : i < messages.length)
    (h : (messages.get ⟨i, hi⟩).content = none ∨
         (messages.get ⟨i, hi⟩).content = some "") :
    ∃ hj : i < (CustomProvider.chat s messages tools model mt temperature
        outcome).2.1.messages.length,
      ((CustomProvider.chat s messages tools model mt temperature
        outcome).2.1.messages.get ⟨i, hj⟩).content = some "" ∧
      ((CustomProvider.chat s messages tools model mt temperature
        outcome).2.1.messages.get ⟨i, hj⟩).role =
        (messages.get ⟨i, hi⟩).role := by
  have hb : i < (messages.map CustomProvider.sanitize_message).length := by
    simpa using hi
  refine ⟨hb, ?_, ?_⟩
  · show ((messages.map CustomProvider.sanitize_message).get ⟨i, hb⟩).content = some ""
    have hm := sanitize_message_of_empty (messages.get ⟨i, hi⟩) h
    simp only [List.get_eq_getElem, List.getElem_map] at hm ⊢
    rw [hm]
  · show ((messages.map CustomProvider.sanitize_message).get ⟨i, hb⟩).role =
      (messages.get ⟨i, hi⟩).role
    simp only [List.get_eq_getElem, List.getElem_map]
    exact sanitize_message_role _

/-- C9 witness: a two-message sequence whose second message has absent
content; position 1 is transmitted with explicit empty-string content and
its role kept. -/
theorem chat_transmits_empty_content_witness :
    ((1 : Nat) < ([{ role := "user", content := some "hi" },
                   { role := "assistant", content := none }] :
        List ChatMessage).length) ∧
    ∃ hj : (1 : Nat) < (CustomProvider.chat s0
        [{ role := "user", content := some "hi" },
         { role := "assistant", content := none }]
        none none 4096 0.7 (Except.error "x")).2.1.messages.length,
      ((CustomProvider.chat s0
        [{ role := "user", content := some "hi" },
         { role := "assistant", content := none }]
        none none 4096 0.7 (Except.error "x")).2.1.messages.get
          ⟨1, hj⟩).content = some "" ∧
      ((CustomProvider.chat s0
        [{ role := "user", content := some "hi" },
         { role := "assistant", content := none }]
        none none 4096 0.7 (Except.error "x")).2.1.messages.get
          ⟨1, hj⟩).role =
        (([{ role := "user", content := some "hi" },
           { role := "assistant", content := none }] :
          List ChatMessage).get ⟨1, by decide⟩).role :=
  ⟨by decide,
   chat_transmits_empty_content_as_empty_string s0
     [{ role := "user", content := some "hi" },
      { role := "assistant", content := none }]
     none none 4096 0.7 (Except.error "x") 1 (by decide) (Or.inl rfl)⟩

/-- One observable adapter operation together with the network outcome
its call would see. -/
inductive Op where
  | listOp (o : FetchOutcome) : Op
  | setOp (name : String) : Op
  | refreshOp (o : FetchOutcome) : Op
  | chatOp (messages : List ChatMessage) (tools : Option (List JValue))
      (model : Option String) (mt : Int) (temperature : Float)
      (outcome : Except String VendorResponse) : Op
  | getCurrentOp : Op
  | getDefaultOp : Op

/-- The state transition each adapter operation induces. -/
def step (s : ProviderState) : Op → ProviderState
  | .listOp o => (CustomProvider.list_models s o).1
  | .setOp n => (CustomProvider.set_model s n).1
  | .refreshOp o => (CustomProvider.refresh_models s o).1
  | .chatOp m t mo mt te out =>
      (CustomProvider.chat s m t mo mt te out).1
  | .getCurrentOp => s
  | .getDefaultOp => s

/-- An operation repopulates the catalog exactly when it is a refresh
whose fetch succeeds with a non-empty model list. -/
def repopulating : Op → Bool
  | .refreshOp (Except.ok (_ :: _)) => true
  | _ => false

/-- C10: the loaded flag is monotone — no operation ever resets it; a
first `list_models` whose fetch failed leaves an empty catalog marked
loaded; in that locked state every `set_model` returns false with the
state unchanged; and the locked state persists under every operation
except a refresh whose fetch returns a non-empty catalog. -/
theorem models_loaded_monotone_and_locks_set_model :
    (∀ (s : ProviderState) (op : Op), s.models_loaded = true →
      (step s op).models_loaded = true) ∧
    (∀ (s : ProviderState) (e : String), s.models_loaded = false →
      (CustomProvider.list_models s (Except.error e)).1.models_loaded = true ∧
      (CustomProvider.list_models s (Except.error e)).1.available_models = []) ∧
    (∀ (s : ProviderState) (name : String), s.models_loaded = true →
      s.available_models = [] →
      CustomProvider.set_model s name = (s, false)) ∧
    (∀ (s : ProviderState) (op : Op), s.models_loaded = true →
      s.available_models = [] → repopulating op = false →
      (step s op).models_loaded = true ∧
      (step s op).available_models = []) := by
  refine ⟨?_, ?_, ?_, ?_⟩
  · intro s op hl
    cases op with
    | listOp o =>
      simp [step, CustomProvider.list_models, CustomProvider.ensure_models_loaded, hl]
    | setOp n =>
      by_cases hm : n ∈ s.available_models <;>
        simp [step, CustomProvider.set_model, hl, hm]
    | refreshOp o => simp [step, CustomProvider.refresh_models]
    | chatOp m t mo mt te out => exact hl
    | getCurrentOp => exact hl
    | getDefaultOp => exact hl
  · intro s e hl
    simp [CustomProvider.list_models, CustomProvider.ensure_models_loaded, hl,
      CustomProvider.fetch_models]
  · intro s name hl he
    simp [CustomProvider.set_model, hl, he]
  · intro s op hl he hr
    cases op with
    | listOp o =>
      simp [step, CustomProvider.list_models, CustomProvider.ensure_models_loaded, hl, he]
    | setOp n =>
      simp [step, CustomProvider.set_model, hl, he]
    | refreshOp o =>
      cases o with
      | error e =>
        simp [step, CustomProvider.refresh_models, CustomProvider.fetch_models]
      | ok l =>
        cases l with
        | nil =>
          simp [step, CustomProvider.refresh_models, CustomProvider.fetch_models]
        | cons x xs => exact absurd hr (by simp [repopulating])
    | chatOp m t mo mt te out => exact ⟨hl, he⟩
    | getCurrentOp => exact ⟨hl, he⟩
    | getDefaultOp => exact ⟨hl, he⟩

/-- The empty-catalog-marked-loaded state, used as a concrete fixture. -/
def sEmptyLoaded : ProviderState :=
  { s0 with models_loaded := true }

/-- C10 witness: the four parts at concrete inputs — a loaded state
surviving a `list_models` step, a failed first load locking the catalog,
a locked state rejecting `set_model "gpt-x"`, and the lock persisting
under a non-repopulating refresh. -/
theorem models_loaded_monotone_witness :
    (step sLoaded (Op.listOp (Except.ok ["m2"]))).models_loaded = true ∧
    ((CustomProvider.list_models s0 (Except.error "boom")).1.models_loaded = true ∧
     (CustomProvider.list_models s0 (Except.error "boom")).1.available_models = []) ∧
    CustomProvider.set_model sEmptyLoaded "gpt-x" = (sEmptyLoaded, false) ∧
    ((step sEmptyLoaded (Op.refreshOp (Except.error "down"))).models_loaded = true ∧
     (step sEmptyLoaded (Op.refreshOp (Except.error "down"))).available_models = []) :=
  ⟨models_loaded_monotone_and_locks_set_model.1 sLoaded
     (Op.listOp (Except.ok ["m2"])) rfl,
   models_loaded_monotone_and_locks_set_model.2.1 s0 "boom" rfl,
   models_loaded_monotone_and_locks_set_model.2.2.1 sEmptyLoaded "gpt-x" rfl rfl,
   models_loaded_monotone_and_locks_set_model.2.2.2 sEmptyLoaded
     (Op.refreshOp (Except.error "down")) rfl rfl rfl⟩
